import Mathlib

/-!
Shallow embedding of the file-store storage library (file backend, B2 backend,
stream utilities) together with proofs about its documented behaviour.

Source files embedded:
  - file-store/src/backends/b2.rs   (B2 client: retry loop, session reset,
    error classification, bucket enumeration for list_objects)
  - file-store/src/backends/file.rs (file backend: get_object, get_file_stream,
    delete_object / delete_directory, write_file_from_stream, ReadStream)
  - file-store/src/utils.rs         (ReaderStream, Limited / InUse pool)

Rust machine integers in this code are usizes used as counters and buffer
sizes, far from overflow on the inputs considered; they are modelled as Nat.
Asynchronous fallible calls are modelled as Except values; poll-based state
machines are modelled as explicit step functions on a state type.
-/

set_option maxRecDepth 4096

/-- Kinds of host I/O errors relevant to the embedded code. The code only
inspects whether an error kind is NotFound; other kinds are carried opaquely. -/
inductive IoErrorKind where
  | notFound
  | notEmpty
  | permissionDenied
  | isDirectory
  | otherKind
deriving DecidableEq, Repr

/-- A host I/O error, as consumed by the storage layer. -/
structure IoError where
  kind : IoErrorKind
deriving DecidableEq, Repr

/-- The error taxonomy from crate::types (spec section 7). -/
inductive StorageErrorKind where
  | notFound
  | invalidPath
  | invalidSettings
  | invalidData
  | accessDenied
  | accessExpired
  | connectionFailed
  | connectionClosed
  | cancelled
  | internalError
  | otherError
deriving DecidableEq, Repr

/-- Modelled from the spec: crate::types::StorageError (not under src/):
an error kind together with a human readable message and an optional wrapped
underlying cause. -/
structure StorageError where
  kind : StorageErrorKind
  message : String
  cause : Option IoError := none
deriving DecidableEq, Repr

/-- A path in the file backend model: the segment list of an ObjectPath. -/
abbrev FPath := List String

/-- Modelled from the spec: crate::types::ObjectPath (not under src/):
an ordered sequence of non-empty segments plus a flag marking whether the
path denotes a directory prefix (spec section 3). The dirFlag field embeds
the is_dir_prefix accessor. -/
structure ObjectPath where
  parts : List String
  dirFlag : Bool := false
deriving DecidableEq, Repr

/-- Modelled from the spec: ObjectPath::to_string, the string round trip of a
path (segments joined by the separator). Used only to build error messages. -/
def ObjectPath.toStr (p : ObjectPath) : String :=
  String.intercalate "/" p.parts ++ (if p.dirFlag then "/" else "")

/-- Modelled from the spec: ObjectPath::is_empty, the emptiness test. -/
def ObjectPath.isEmptyPath (p : ObjectPath) : Bool :=
  p.parts.isEmpty

/-- Modelled from the spec: ObjectPath::join, joining two paths with a
separator in between (spec sections 4.1 and the B2 builder documentation). -/
def ObjectPath.join (a b : ObjectPath) : ObjectPath :=
  { parts := a.parts ++ b.parts, dirFlag := b.dirFlag }

/-- Modelled from the spec: ObjectPath::unshift_part as used by the callers in
src (b2.rs list_objects and new_object): removes and returns the first
segment, used to peel off a bucket name from a full path. -/
def ObjectPath.unshiftPart (p : ObjectPath) : Option String × ObjectPath :=
  match p.parts with
  | [] => (none, p)
  | x :: rest => (some x, { p with parts := rest })

/-- Modelled from the spec: error::not_found from crate::types::error. -/
def error.not_found (p : ObjectPath) (cause : Option IoError) : StorageError :=
  { kind := .notFound, message := p.toStr, cause := cause }

/-- Modelled from the spec: error::invalid_path from crate::types::error. -/
def error.invalid_path (p : ObjectPath) (message : String) : StorageError :=
  { kind := .invalidPath, message := p.toStr ++ ": " ++ message }

/-- Modelled from the spec: error::other_error from crate::types::error. -/
def error.other_error (message : String) (cause : Option IoError) : StorageError :=
  { kind := .otherError, message := message, cause := cause }

/-- Modelled from the spec: error::access_denied from crate::types::error. -/
def error.access_denied (message : String) : StorageError :=
  { kind := .accessDenied, message := message }

/-- Modelled from the spec: error::access_expired from crate::types::error. -/
def error.access_expired (message : String) : StorageError :=
  { kind := .accessExpired, message := message }

/-- Modelled from the spec: error::internal_error from crate::types::error. -/
def error.internal_error (message : String) : StorageError :=
  { kind := .internalError, message := message }

/-- Modelled from the spec: error::connection_failed from crate::types::error. -/
def error.connection_failed (message : String) : StorageError :=
  { kind := .connectionFailed, message := message }

/-- The structured B2 API error body parsed from a non-success response
(wire contract of spec section 6): status, code and message fields. -/
structure ErrorResponse where
  status : Nat
  code : String
  message : String
deriving DecidableEq, Repr

/-- Embeds generate_error from b2.rs (lines 590-629) after the JSON parse of
the error body has succeeded: classifies the (method, status, code) triple
through the ordered match of the source, in source arm order. -/
def generate_error (method : String) (path : ObjectPath) (err : ErrorResponse) :
    StorageError :=
  if method = "b2_authorize_account" ∧ err.status = 401 ∧ err.code = "bad_auth_token" then
    error.access_denied "The application key id or key were not recognized."
  else if err.status = 400 ∧ err.code = "bad_request" then
    error.internal_error err.message
  else if err.status = 400 ∧ err.code = "invalid_bucket_id" then
    error.not_found path none
  else if err.status = 400 ∧ err.code = "out_of_range" then
    error.internal_error err.message
  else if err.status = 401 ∧ err.code = "unauthorized" then
    error.access_denied "The application key id or key were not recognized."
  else if err.status = 401 ∧ err.code = "bad_auth_token" then
    error.access_expired "The authentication token is invalid."
  else if err.status = 401 ∧ err.code = "expired_auth_token" then
    error.access_expired "The authentication token has expired."
  else if err.status = 401 ∧ err.code = "unsupported" then
    error.internal_error err.message
  else if err.status = 503 ∧ err.code = "bad_request" then
    error.connection_failed err.message
  else
    error.other_error
      ("Unknown B2 API failure " ++ toString err.status ++ ": " ++ err.code
        ++ ", " ++ err.message) none

/-- The classification that the specification states for generate_error,
written from the amended claim text: all source table rows, with anything
unrecognized mapping to OtherError preserving the message. Used to state the
refinement between the table the spec should list and the code. -/
def generate_error_table (method : String) (path : ObjectPath) (err : ErrorResponse) :
    StorageError :=
  match err.status, err.code with
  | 401, "bad_auth_token" =>
    if method = "b2_authorize_account" then
      error.access_denied "The application key id or key were not recognized."
    else
      error.access_expired "The authentication token is invalid."
  | 401, "expired_auth_token" =>
    error.access_expired "The authentication token has expired."
  | 401, "unauthorized" =>
    error.access_denied "The application key id or key were not recognized."
  | 401, "unsupported" => error.internal_error err.message
  | 400, "bad_request" => error.internal_error err.message
  | 400, "invalid_bucket_id" => error.not_found path none
  | 400, "out_of_range" => error.internal_error err.message
  | 503, "bad_request" => error.connection_failed err.message
  | _, _ =>
    error.other_error
      ("Unknown B2 API failure " ++ toString err.status ++ ": " ++ err.code
        ++ ", " ++ err.message) none

/-- API_RETRIES from b2.rs line 62. -/
def API_RETRIES : Nat := 3

/-- The cached authorization result (AuthorizeAccountResponse): account id,
API base URL and bearer token, as held in the session cache. -/
structure AuthorizeAccountResponse where
  account_id : String
  api_url : String
  authorization_token : String
deriving DecidableEq, Repr

/-- Embeds B2Client::reset_session (b2.rs lines 252-259): under the session
lock, take (clear) the cached session only when its authorization token still
equals the token that just failed. -/
def reset_session (session : Option AuthorizeAccountResponse) (auth_token : String) :
    Option AuthorizeAccountResponse :=
  match session with
  | some s => if s.authorization_token = auth_token then none else some s
  | none => none

/-- The retry loop of B2Client::b2_api_call (b2.rs lines 202-237), driven by
the sequence of attempt outcomes. The argument outcomes gives, for each
attempt index, the result of building the request against the then-current
session and executing it. The remaining argument is API_RETRIES minus the
number of failures consumed so far: on an AccessExpired failure the loop
increments tries and re-enters only while tries is below API_RETRIES. -/
def b2_api_call_go {Q : Type} (outcomes : Nat → Except StorageError Q) :
    Nat → Nat → Except StorageError Q
  | i, 0 => outcomes i
  | i, r + 1 =>
    match outcomes i with
    | .ok q => .ok q
    | .error e =>
      if e.kind = StorageErrorKind.accessExpired ∧ 0 < r then
        b2_api_call_go outcomes (i + 1) r
      else
        .error e

/-- Embeds B2Client::b2_api_call: starts with tries equal to zero, that is a
full budget of API_RETRIES attempts. -/
def b2_api_call {Q : Type} (outcomes : Nat → Except StorageError Q) :
    Except StorageError Q :=
  b2_api_call_go outcomes 0 API_RETRIES

/-- Node stored in the modelled host filesystem: a regular file with its byte
content, a directory, or a symlink. -/
inductive FsNode where
  | file (content : List Nat)
  | dir
  | symlink
deriving DecidableEq, Repr

/-- The modelled host filesystem: a finite association of paths (relative to
the FileSpace base) to nodes. -/
structure Fs where
  entries : List (FPath × FsNode)
deriving DecidableEq, Repr

/-- Looks up the node at a path. -/
def Fs.lookup (fs : Fs) (p : FPath) : Option FsNode :=
  List.lookup p fs.entries

/-- Whether the node at a path is a directory. -/
def Fs.isDirAt (fs : Fs) (p : FPath) : Bool :=
  fs.lookup p = some .dir

/-- Whether some entry lies strictly below the given path. -/
def Fs.hasEntryBelow (fs : Fs) (p : FPath) : Bool :=
  fs.entries.any (fun e => p.isPrefixOf e.1 && decide (p.length < e.1.length))

/-- Removes the entry at a path. -/
def Fs.erase (fs : Fs) (p : FPath) : Fs :=
  ⟨fs.entries.filter (fun e => e.1 ≠ p)⟩

/-- Host contract of tokio_fs::symlink_metadata as consumed through the
wrappers in file.rs: the node at the path, or a NotFound error when nothing
exists there. -/
def symlink_metadata (fs : Fs) (p : FPath) : Except IoError FsNode :=
  match fs.lookup p with
  | some n => .ok n
  | none => .error ⟨.notFound⟩

/-- Host contract of tokio_fs::remove_file: removes a non-directory entry;
fails NotFound when nothing is there and IsDirectory on a directory. -/
def remove_file (fs : Fs) (p : FPath) : Except IoError Fs :=
  match fs.lookup p with
  | some (.file _) => .ok (fs.erase p)
  | some .symlink => .ok (fs.erase p)
  | some .dir => .error ⟨.isDirectory⟩
  | none => .error ⟨.notFound⟩

/-- Host contract of tokio_fs::remove_dir: removes an EMPTY directory; fails
NotEmpty when anything still lies beneath the directory, NotFound when
nothing is there, and a generic error on a non-directory. -/
def remove_dir (fs : Fs) (p : FPath) : Except IoError Fs :=
  match fs.lookup p with
  | some .dir =>
    if fs.hasEntryBelow p then .error ⟨.notEmpty⟩ else .ok (fs.erase p)
  | some _ => .error ⟨.otherKind⟩
  | none => .error ⟨.notFound⟩

/-- Embeds get_storage_error from file.rs (lines 133-138): the translation of
a host I/O failure into the storage taxonomy at the backend boundary. -/
def get_storage_error (e : IoError) (path : ObjectPath) : StorageError :=
  match e.kind with
  | .notFound => error.not_found path (some e)
  | _ => error.other_error path.toStr (some e)

/-- Wraps an FPath as the ObjectPath the file backend carries for it. -/
def pathOf (p : FPath) : ObjectPath := ⟨p, false⟩

/-- Object types from crate::types (spec section 3). -/
inductive ObjectType where
  | file
  | directory
  | symlink
  | unknown
deriving DecidableEq, Repr

/-- Object metadata snapshot as produced by the file backend. -/
structure Object where
  path : FPath
  object_type : ObjectType
  size : Nat
deriving DecidableEq, Repr

/-- Embeds the free function get_object from file.rs (lines 154-174): builds
an Object from a path and an optional metadata value; no metadata yields the
Unknown type with size zero. -/
def get_object_from_meta (p : FPath) (metadata : Option FsNode) : Object :=
  match metadata with
  | some (.file c) => ⟨p, .file, c.length⟩
  | some .dir => ⟨p, .directory, 0⟩
  | some .symlink => ⟨p, .symlink, 0⟩
  | none => ⟨p, .unknown, 0⟩

/-- Direct children of a directory path in the modelled filesystem, in entry
order. -/
def Fs.childrenOf (fs : Fs) (p : FPath) : List FPath :=
  fs.entries.filterMap
    (fun e => if p.isPrefixOf e.1 ∧ e.1.length = p.length + 1 then some e.1 else none)

/-- The enumeration order produced by FileLister (file.rs lines 253-301) on
the modelled filesystem: every object is emitted exactly once and, crucially,
a directory object is emitted BEFORE any of its contents, because poll_next
pushes the child directory stream only at the moment it yields the directory
object itself. The fuel argument bounds the recursion depth by the number of
filesystem entries. -/
def Fs.listAllFuel (fs : Fs) : Nat → FPath → List Object
  | 0, _ => []
  | n + 1, p =>
    (fs.childrenOf p).flatMap fun c =>
      get_object_from_meta c (fs.lookup c) ::
        (if fs.isDirAt c then fs.listAllFuel n c else [])

/-- The recursive listing of everything beneath a directory, in FileLister
emission order. -/
def Fs.listAll (fs : Fs) (p : FPath) : List Object :=
  fs.listAllFuel fs.entries.length p

/-- Embeds delete_directory from file.rs (lines 371-397): collect the full
recursive listing, remove every non-directory in listing order, then remove
every directory in listing order, then remove the directory itself. -/
def delete_directory (fs : Fs) (path : FPath) : Except StorageError Fs := do
  let allfiles := fs.listAll path
  let nondirectories := allfiles.filter (fun o => o.object_type ≠ ObjectType.directory)
  let directories := allfiles.filter (fun o => o.object_type = ObjectType.directory)
  let fs1 ← nondirectories.foldlM
    (fun acc o => (remove_file acc o.path).mapError (fun e => get_storage_error e (pathOf o.path)))
    fs
  let fs2 ← directories.foldlM
    (fun acc o => (remove_dir acc o.path).mapError (fun e => get_storage_error e (pathOf o.path)))
    fs1
  (remove_dir fs2 path).mapError (fun e => get_storage_error e (pathOf path))

/-- Embeds the inner delete of FileBackend::delete_object (file.rs lines
550-569): fetch metadata (boundary-translated), remove a non-directory with
remove_file, delegate a directory to delete_directory. -/
def delete_object (fs : Fs) (path : FPath) : Except StorageError Fs := do
  let metadata ← (symlink_metadata fs path).mapError (fun e => get_storage_error e (pathOf path))
  if metadata ≠ FsNode.dir then
    (remove_file fs path).mapError (fun e => get_storage_error e (pathOf path))
  else
    delete_directory fs path

/-- A write error, distinguishing a failure of the input stream from a
failure of the storage target (spec section 7). -/
inductive TransferError where
  | sourceError (e : StorageError)
  | targetError (e : StorageError)
deriving DecidableEq, Repr

/-- Creates (or truncates) the file at a path with empty content, the model
of File::create from file.rs. -/
def Fs.createFile (fs : Fs) (p : FPath) : Fs :=
  ⟨(p, FsNode.file []) :: (fs.erase p).entries⟩

/-- Appends bytes to the file at a path, the model of write_all on the open
destination file. -/
def Fs.appendData (fs : Fs) (p : FPath) (d : List Nat) : Fs :=
  ⟨fs.entries.map fun e =>
    if e.1 = p then
      (e.1, match e.2 with | .file c => FsNode.file (c ++ d) | n => n)
    else e⟩

/-- Embeds the inner write of FileBackend::write_file_from_stream (file.rs
lines 571-665). The input stream is the list of chunks it yields before
signalling end-of-data; each chunk is either data or a source failure.
Mirrors the source order: fetch metadata at the target (a directory is
deleted through delete_directory, anything else through remove_file, absence
is tolerated), then create the file, then drain the stream writing each chunk
in order, then flush and close (the host flush and close succeed in this
model; their failures are environmental). -/
def write_file_from_stream (fs : Fs) (path : FPath)
    (stream : List (Except StorageError (List Nat))) : Except TransferError Fs := do
  let fs1 ←
    match symlink_metadata fs path with
    | .ok m =>
      if m = FsNode.dir then
        (delete_directory fs path).mapError TransferError.targetError
      else
        ((remove_file fs path).mapError
          (fun e => TransferError.targetError (get_storage_error e (pathOf path))))
    | .error e =>
      if e.kind ≠ IoErrorKind.notFound then
        Except.error (TransferError.targetError (get_storage_error e (pathOf path)))
      else
        pure fs
  let fs2 := fs1.createFile path
  let fs3 ← stream.foldlM
    (fun acc chunk =>
      match chunk with
      | .ok data => pure (acc.appendData path data)
      | .error e => Except.error (TransferError.sourceError e))
    fs2
  pure fs3

/-- Embeds the body of the inner get of FileBackend::get_object (file.rs
lines 498-511) as a function of the metadata fetch result: success yields the
typed object, a NotFound failure yields a NotFound error, and any other
failure yields a SUCCESSFUL object of Unknown type. -/
def file_get_object_aux (path : FPath) (metaResult : Except IoError FsNode) :
    Except StorageError Object :=
  match metaResult with
  | .ok m => .ok (get_object_from_meta path (some m))
  | .error e =>
    if e.kind = IoErrorKind.notFound then
      .error (error.not_found (pathOf path) (some e))
    else
      .ok (get_object_from_meta path none)

/-- Embeds FileBackend::get_object (file.rs lines 493-526): a directory
prefix path is rejected with InvalidPath before the returned future performs
any filesystem access; otherwise the inner get runs against the metadata of
the target path. -/
def file_get_object (fs : Fs) (path : ObjectPath) : Except StorageError Object :=
  if path.dirFlag then
    .error (error.invalid_path path
      "Object paths cannot be empty or end with a / character.")
  else
    file_get_object_aux path.parts (symlink_metadata fs path.parts)

/-- Embeds the guard of B2Backend::get_object (b2.rs lines 544-562): the
directory prefix check performed before the unimplemented remainder. -/
def b2_get_object_guard (path : ObjectPath) : Option StorageError :=
  if path.dirFlag then
    some (error.invalid_path path
      "Object paths cannot be empty or end with a / character.")
  else
    none

/-- Embeds the inner read of FileBackend::get_file_stream (file.rs lines
528-548): boundary-translated metadata fetch, a NotFound error when the entry
is not a regular file, otherwise the opened byte stream (modelled by the file
content it will yield). -/
def file_get_file_stream (fs : Fs) (path : FPath) : Except StorageError (List Nat) := do
  let metadata ← (symlink_metadata fs path).mapError
    (fun e => get_storage_error e (pathOf path))
  match metadata with
  | .file c => pure c
  | _ => .error (error.not_found (pathOf path) none)

/-- A bucket as returned by b2_list_buckets. -/
structure B2Bucket where
  bucket_id : String
  bucket_name : String
deriving DecidableEq, Repr

/-- Embeds the container enumeration of B2Backend::list_objects (b2.rs lines
470-517): join the backend prefix with the requested prefix, record whether
the joined path is a directory prefix, peel the first segment off as the
bucket name, ask b2_list_buckets for the account buckets (with the
bucket_name request field set exactly when the remainder is non-empty or the
path was a directory prefix), and keep the buckets whose name starts with the
peeled segment. The b2_list_buckets response is modelled from the spec (wire
contract, section 6): when the request names a bucket the response contains
exactly the account buckets bearing that name, otherwise all account buckets.
Character-level prefix comparison embeds str::starts_with. -/
def b2_list_enumerated_buckets (backendPfx pfx : ObjectPath)
    (accountBuckets : List B2Bucket) : List B2Bucket :=
  let filePart0 := backendPfx.join pfx
  let is_dir := filePart0.dirFlag
  let shifted := filePart0.unshiftPart
  let bucket := shifted.1.getD ""
  let filePart := shifted.2
  let returned :=
    if ¬filePart.isEmptyPath ∨ is_dir then
      accountBuckets.filter (fun b => b.bucket_name = bucket)
    else
      accountBuckets
  returned.filter (fun b => bucket.toList.isPrefixOf b.bucket_name.toList)

/-- INITIAL_BUFFER_SIZE from file.rs line 38. -/
def INITIAL_BUFFER_SIZE : Nat := 20 * 1024 * 1024

/-- MIN_BUFFER_SIZE from file.rs line 39. -/
def MIN_BUFFER_SIZE : Nat := 1 * 1024 * 1024

/-- The state of the adaptive buffered read stream: the wrapped reader is
external, so the state is the reusable buffer together with the two size
settings (the file.rs ReadStream fixes them to the constants above, the
utils.rs ReaderStream takes them as arguments). -/
structure ReadStreamState where
  path : ObjectPath
  buffer : List Nat
  initial_buffer_size : Nat
  minimum_buffer_size : Nat
deriving DecidableEq, Repr

/-- Outcome of one poll_read on the wrapped reader: pending, n bytes written
into the front of the buffer (n = 0 meaning end of data), or an I/O error. -/
inductive PollRead where
  | pending
  | ready (bytes : List Nat)
  | readErr (e : IoError)
deriving DecidableEq, Repr

/-- Outcome of one poll_next on a stream. -/
inductive PollNext (α : Type) where
  | pending
  | ready (item : Option α)
deriving DecidableEq, Repr

/-- A freshly allocated buffer of the given size (contents unexamined; the
model fills it with zeros). -/
def freshBuffer (n : Nat) : List Nat := List.replicate n 0

/-- Embeds ReadStream::inner_poll (file.rs lines 337-356), equally the shape
of ReaderStream::inner_poll (utils.rs lines 79-98): a zero length read yields
the end-of-stream signal; a read of n bytes overwrites the first n bytes of
the buffer, splits that filled prefix off as the yielded chunk, and keeps the
remainder as the buffer unless it fell under minimum_buffer_size, in which
case a fresh initial_buffer_size buffer replaces it; an I/O error yields the
boundary-translated storage error. -/
def ReadStream.inner_poll (st : ReadStreamState) (r : PollRead) :
    PollNext (Except StorageError (List Nat)) × ReadStreamState :=
  match r with
  | .pending => (.pending, st)
  | .readErr e => (.ready (some (.error (get_storage_error e st.path))), st)
  | .ready bs =>
    if bs.length = 0 then
      (.ready none, st)
    else
      let filled := bs ++ st.buffer.drop bs.length
      let data := filled.take bs.length
      let rest := filled.drop bs.length
      let newBuffer :=
        if rest.length < st.minimum_buffer_size then
          freshBuffer st.initial_buffer_size
        else rest
      (.ready (some (.ok data)), { st with buffer := newBuffer })

/-- The counting permit pool behind Limited (tokio_sync semaphore contract):
the number of currently free permits. -/
structure SemaphoreState where
  available : Nat
deriving DecidableEq, Repr

/-- A permit handle: whether it currently holds an acquired permit. -/
structure Permit where
  acquired : Bool
deriving DecidableEq, Repr

/-- Contract of tokio_sync Permit::release: the permit returns to the
semaphore and the handle no longer counts as acquired. -/
def Permit.releasePermit (_p : Permit) (s : SemaphoreState) : Permit × SemaphoreState :=
  (⟨false⟩, ⟨s.available + 1⟩)

/-- Embeds InUse (utils.rs lines 162-196): the guard handed out by
Limited::take, holding the permit and a clone of the guarded resource. -/
structure InUse (T : Type) where
  permit : Permit
  inner : T
deriving DecidableEq, Repr

/-- Embeds InUse::release (utils.rs lines 169-176): a no-op unless the permit
is still acquired, otherwise returns the permit to the semaphore. -/
def InUse.release {T : Type} (g : InUse T) (s : SemaphoreState) :
    InUse T × SemaphoreState :=
  if g.permit.acquired = false then (g, s)
  else
    let r := g.permit.releasePermit s
    ({ g with permit := r.1 }, r.2)

/-- Embeds the Drop implementation of InUse (utils.rs lines 192-196), which
simply calls release. -/
def InUse.dropGuard {T : Type} (g : InUse T) (s : SemaphoreState) :
    InUse T × SemaphoreState :=
  g.release s

/-- Embeds Limited::take (utils.rs lines 144-159): acquire a permit (which
suspends until one is free, so it completes only when the semaphore has a
free permit, consuming it) and hand out a guard over a clone of the resource
with the acquired permit. -/
def Limited.take {T : Type} (base : T) (s : SemaphoreState) (_h : 0 < s.available) :
    InUse T × SemaphoreState :=
  (⟨⟨true⟩, base⟩, ⟨s.available - 1⟩)

/-- A filesystem holding the directory d with a nested chain of
subdirectories d/a and d/a/b, the failing input for the recursive delete. -/
def fsNested : Fs :=
  ⟨[(["d"], FsNode.dir), (["d", "a"], FsNode.dir), (["d", "a", "b"], FsNode.dir)]⟩

/-- A filesystem holding a single regular file at d. -/
def fsSingleFile : Fs := ⟨[(["d"], FsNode.file [1, 2])]⟩

theorem b2_api_call_go_succ {Q : Type} (f : Nat → Except StorageError Q) (i r : Nat) :
    b2_api_call_go f i (r + 1) =
      (match f i with
       | .ok q => .ok q
       | .error e =>
         if e.kind = StorageErrorKind.accessExpired ∧ 0 < r then
           b2_api_call_go f (i + 1) r
         else
           .error e) := rfl

/-- Closed form of the retry loop at the source budget of three attempts. -/
theorem b2_api_call_eq {Q : Type} (f : Nat → Except StorageError Q) :
    b2_api_call f =
      (match f 0 with
       | .ok q => .ok q
       | .error e0 =>
         if e0.kind = StorageErrorKind.accessExpired then
           (match f 1 with
            | .ok q => .ok q
            | .error e1 =>
              if e1.kind = StorageErrorKind.accessExpired then
                (match f 2 with
                 | .ok q => .ok q
                 | .error e2 => .error e2)
              else .error e1)
         else .error e0) := by
  show b2_api_call_go f 0 (2 + 1) = _
  rw [b2_api_call_go_succ]
  cases h0 : f 0 with
  | ok q => rfl
  | error e0 =>
    by_cases hk0 : e0.kind = StorageErrorKind.accessExpired
    · simp only [hk0, true_and, Nat.zero_lt_succ, if_true, if_pos]
      show b2_api_call_go f 1 (1 + 1) = _
      rw [b2_api_call_go_succ]
      cases h1 : f 1 with
      | ok q => rfl
      | error e1 =>
        by_cases hk1 : e1.kind = StorageErrorKind.accessExpired
        · simp only [hk1, true_and, Nat.zero_lt_succ, if_true, if_pos]
          show b2_api_call_go f 2 (0 + 1) = _
          rw [b2_api_call_go_succ]
          cases h2 : f 2 with
          | ok q => rfl
          | error e2 => simp
        · simp [hk1]
    · simp [hk0]

/-- Claim C1: for every B2 API call, an error classified AccessExpired makes
the whole call retry from session acquisition with a budget of three attempts
in total: a single AccessExpired failure followed by success surfaces no
error, three consecutive AccessExpired failures exhaust the budget and the
AccessExpired error is returned, and the call never consumes more than the
first three attempt outcomes. -/
theorem b2_api_call_retry_budget {Q : Type} (outcomes : Nat → Except StorageError Q) :
    (∀ e (v : Q), e.kind = StorageErrorKind.accessExpired →
      outcomes 0 = .error e → outcomes 1 = .ok v → b2_api_call outcomes = .ok v)
    ∧ (∀ e0 e1 e2, e0.kind = StorageErrorKind.accessExpired →
        e1.kind = StorageErrorKind.accessExpired →
        e2.kind = StorageErrorKind.accessExpired →
        outcomes 0 = .error e0 → outcomes 1 = .error e1 → outcomes 2 = .error e2 →
        b2_api_call outcomes = .error e2)
    ∧ (∀ other : Nat → Except StorageError Q,
        (∀ i, i < API_RETRIES → outcomes i = other i) →
        b2_api_call outcomes = b2_api_call other) := by
  refine ⟨?_, ?_, ?_⟩
  · intro e v he h0 h1
    rw [b2_api_call_eq, h0, h1]
    simp [he]
  · intro e0 e1 e2 hk0 hk1 hk2 h0 h1 h2
    rw [b2_api_call_eq, h0, h1, h2]
    simp [hk0, hk1, hk2]
  · intro other hag
    rw [b2_api_call_eq outcomes, b2_api_call_eq other,
      hag 0 (by decide), hag 1 (by decide), hag 2 (by decide)]

/-- Witness for C1 at concrete outcome sequences: one AccessExpired failure
then success yields the success; three AccessExpired failures yield the
error. -/
theorem b2_api_call_retry_budget_witness :
    b2_api_call
        (fun i => if i = 0 then .error (error.access_expired "expired") else .ok 7)
      = Except.ok 7
    ∧ b2_api_call (fun _ : Nat => (.error (error.access_expired "expired") :
          Except StorageError Nat))
      = .error (error.access_expired "expired") := by
  constructor
  · exact (b2_api_call_retry_budget _).1 (error.access_expired "expired") 7 rfl rfl rfl
  · exact (b2_api_call_retry_budget _).2.1 (error.access_expired "expired")
      (error.access_expired "expired") (error.access_expired "expired")
      rfl rfl rfl rfl rfl rfl

/-- Claim C9: on an AccessExpired failure the cached session is cleared only
when its authorization token still equals the token that just failed; a
cached session holding a different token is left unchanged. -/
theorem reset_session_conditional (s : AuthorizeAccountResponse) (tok : String) :
    (s.authorization_token = tok → reset_session (some s) tok = none)
    ∧ (s.authorization_token ≠ tok → reset_session (some s) tok = some s)
    ∧ reset_session none tok = none := by
  refine ⟨?_, ?_, rfl⟩
  · intro h
    simp [reset_session, h]
  · intro h
    simp [reset_session, h]

/-- Witness for C9 at a concrete cached session and tokens. -/
theorem reset_session_conditional_witness :
    reset_session (some ⟨"acc", "url", "tokA"⟩) "tokA" = none
    ∧ reset_session (some ⟨"acc", "url", "tokB"⟩) "tokA" = some ⟨"acc", "url", "tokB"⟩ := by
  constructor
  · exact (reset_session_conditional ⟨"acc", "url", "tokA"⟩ "tokA").1 rfl
  · exact (reset_session_conditional ⟨"acc", "url", "tokB"⟩ "tokA").2.1 (by decide)

/-- Counterexample for C5: a 503 response whose error code is not
bad_request is classified OtherError, not ConnectionFailed; the stated table
row that any 503 maps to ConnectionFailed fails on the code. -/
theorem generate_error_503_counterexample :
    (generate_error "b2_list_buckets" ⟨["bkt"], false⟩
        ⟨503, "service_unavailable", "stop"⟩).kind = StorageErrorKind.otherError
    ∧ (generate_error "b2_list_buckets" ⟨["bkt"], false⟩
        ⟨503, "service_unavailable", "stop"⟩).kind ≠ StorageErrorKind.connectionFailed := by
  constructor
  · rfl
  · decide

/-- Claim C5 as amended: the classification of a parsed non-success response
follows the full source table (401 bad_auth_token splits on the authorize
call into AccessDenied versus AccessExpired; 401 expired_auth_token maps to
AccessExpired; 401 unauthorized to AccessDenied; 401 unsupported, 400
bad_request and 400 out_of_range to InternalError; 400 invalid_bucket_id to
NotFound; 503 ONLY WITH CODE bad_request to ConnectionFailed; every other
combination to OtherError with the response message preserved), stated as the
equality of the code classifier with the table classifier. -/
theorem generate_error_matches_table (method : String) (path : ObjectPath)
    (err : ErrorResponse) :
    generate_error method path err = generate_error_table method path err := by
  rcases err with ⟨st, code, msg⟩
  simp only [generate_error_table]
  split
  · by_cases hm : method = "b2_authorize_account" <;> simp [generate_error, hm]
  · simp [generate_error]
  · simp [generate_error]
  · simp [generate_error]
  · simp [generate_error]
  · simp [generate_error]
  · simp [generate_error]
  · simp [generate_error]
  case _ h1 h2 h3 h4 h5 h6 h7 h8 =>
    have n1 : ¬(method = "b2_authorize_account" ∧ st = 401 ∧ code = "bad_auth_token") :=
      fun h => h1 h.2.1 h.2.2
    have n2 : ¬(st = 400 ∧ code = "bad_request") := fun h => h5 h.1 h.2
    have n3 : ¬(st = 400 ∧ code = "invalid_bucket_id") := fun h => h6 h.1 h.2
    have n4 : ¬(st = 400 ∧ code = "out_of_range") := fun h => h7 h.1 h.2
    have n5 : ¬(st = 401 ∧ code = "unauthorized") := fun h => h3 h.1 h.2
    have n6 : ¬(st = 401 ∧ code = "bad_auth_token") := fun h => h1 h.1 h.2
    have n7 : ¬(st = 401 ∧ code = "expired_auth_token") := fun h => h2 h.1 h.2
    have n8 : ¬(st = 401 ∧ code = "unsupported") := fun h => h4 h.1 h.2
    have n9 : ¬(st = 503 ∧ code = "bad_request") := fun h => h8 h.1 h.2
    simp [generate_error, n1, n2, n3, n4, n5, n6, n7, n8, n9]

/-- Claim C2, evaluated at the failing input: on the directory d containing
the nested subdirectory chain d/a, d/a/b, the recursive listing emits the
parent directory d/a BEFORE its child d/a/b, so the directory removal pass
of delete_directory attempts remove_dir on d/a while d/a/b still exists
beneath it and the whole delete fails (nothing like children-before-parent
removal happens), contradicting the claimed removal order. -/
theorem delete_directory_nested_fails :
    (fsNested.listAll ["d"]).map Object.path = [["d", "a"], ["d", "a", "b"]]
    ∧ delete_directory fsNested ["d"]
      = .error { kind := .otherError, message := "d/a", cause := some ⟨.notEmpty⟩ } := by
  constructor
  · rfl
  · rfl

/-- Claim C3, evaluated at the failing input: writing over the directory d
that contains the nested chain d/a, d/a/b fails with a TargetError coming
from the parent-before-child directory removal inside delete_directory,
instead of replacing the tree with a single file; over a plain file the
overwrite path behaves as claimed and leaves exactly the new bytes. -/
theorem write_file_from_stream_nested_dir_fails :
    write_file_from_stream fsNested ["d"] [.ok [9, 9]]
      = .error (.targetError { kind := .otherError, message := "d/a", cause := some ⟨.notEmpty⟩ })
    ∧ write_file_from_stream fsSingleFile ["d"] [.ok [9, 9]]
      = .ok ⟨[(["d"], FsNode.file [9, 9])]⟩ := by
  constructor
  · rfl
  · rfl

/-- Claim C4: get_object rejects a directory-prefix path with InvalidPath
without touching the backend (the result is the same for every filesystem
state, and the B2 backend performs the same guard); get_object fails NotFound
when nothing exists at the path; get_file_stream fails NotFound when the
referenced entry does not exist or is not a regular file. -/
theorem get_object_error_contract (fs : Fs) (p : ObjectPath) :
    (p.dirFlag = true →
      (∀ fs2 : Fs, file_get_object fs2 p
        = .error (error.invalid_path p
            "Object paths cannot be empty or end with a / character."))
      ∧ b2_get_object_guard p
        = some (error.invalid_path p
            "Object paths cannot be empty or end with a / character."))
    ∧ (p.dirFlag = false → fs.lookup p.parts = none →
        file_get_object fs p = .error (error.not_found ⟨p.parts, false⟩ (some ⟨.notFound⟩)))
    ∧ (∀ q : FPath, fs.lookup q = none →
        file_get_file_stream fs q = .error (error.not_found (pathOf q) (some ⟨.notFound⟩)))
    ∧ (∀ (q : FPath) (m : FsNode), fs.lookup q = some m → (∀ c, m ≠ FsNode.file c) →
        file_get_file_stream fs q = .error (error.not_found (pathOf q) none)) := by
  refine ⟨fun hd => ⟨fun fs2 => ?_, ?_⟩, fun hd hn => ?_, fun q hn => ?_, fun q m hm hf => ?_⟩
  · simp [file_get_object, hd]
  · simp [b2_get_object_guard, hd]
  · simp [file_get_object, hd, file_get_object_aux, symlink_metadata, hn,
      get_storage_error, pathOf]
  · simp [file_get_file_stream, symlink_metadata, hn, get_storage_error,
      Except.mapError, Except.bind, bind]
  · cases m with
    | file c => exact absurd rfl (hf c)
    | dir =>
      simp [file_get_file_stream, symlink_metadata, hm, Except.mapError, Except.bind,
        bind, pure, Except.pure]
    | symlink =>
      simp [file_get_file_stream, symlink_metadata, hm, Except.mapError, Except.bind,
        bind, pure, Except.pure]

/-- Witness for C4 at a concrete filesystem and paths. -/
theorem get_object_error_contract_witness :
    file_get_object fsNested ⟨["d"], true⟩
      = .error (error.invalid_path ⟨["d"], true⟩
          "Object paths cannot be empty or end with a / character.")
    ∧ file_get_object fsNested ⟨["z"], false⟩
      = .error (error.not_found ⟨["z"], false⟩ (some ⟨.notFound⟩))
    ∧ file_get_file_stream fsNested ["z"]
      = .error (error.not_found (pathOf ["z"]) (some ⟨.notFound⟩))
    ∧ file_get_file_stream fsNested ["d"]
      = .error (error.not_found (pathOf ["d"]) none) := by
  refine ⟨?_, ?_, ?_, ?_⟩
  · exact ((get_object_error_contract fsNested ⟨["d"], true⟩).1 rfl).1 fsNested
  · exact (get_object_error_contract fsNested ⟨["z"], false⟩).2.1 rfl rfl
  · exact (get_object_error_contract fsNested ⟨["z"], false⟩).2.2.1 ["z"] rfl
  · exact (get_object_error_contract fsNested ⟨["z"], false⟩).2.2.2 ["d"] FsNode.dir rfl
      (fun c => by simp)

/-- Counterexample for C6: inside get_object, a metadata failure that is not
not-found (here a permission failure) does NOT become an OtherError — the
code swallows it and returns a successful Object of Unknown type, a non-error
fallback value. -/
theorem get_object_unknown_fallback_counterexample :
    file_get_object_aux ["x"] (.error ⟨.permissionDenied⟩)
      = .ok ⟨["x"], ObjectType.unknown, 0⟩ := rfl

/-- Claim C6 as amended: host I/O failures crossing the file backend boundary
through get_storage_error are translated to NotFound (for not-found) or
OtherError carrying the original cause (for everything else); the one
exception is the metadata fetch inside get_object, which maps not-found to a
NotFound error but maps every other failure to a SUCCESSFUL Object of
Unknown type and size zero instead of an error. -/
theorem io_error_boundary_translation (e : IoError) (p : ObjectPath) (q : FPath) :
    (e.kind = IoErrorKind.notFound → get_storage_error e p = error.not_found p (some e))
    ∧ (e.kind ≠ IoErrorKind.notFound →
        get_storage_error e p = error.other_error p.toStr (some e))
    ∧ (e.kind = IoErrorKind.notFound →
        file_get_object_aux q (.error e) = .error (error.not_found (pathOf q) (some e)))
    ∧ (e.kind ≠ IoErrorKind.notFound →
        file_get_object_aux q (.error e) = .ok ⟨q, ObjectType.unknown, 0⟩) := by
  rcases e with ⟨k⟩
  refine ⟨fun h => ?_, fun h => ?_, fun h => ?_, fun h => ?_⟩
  · cases k <;> simp_all [get_storage_error]
  · cases k <;> simp_all [get_storage_error]
  · cases k <;> simp_all [file_get_object_aux, get_object_from_meta]
  · cases k <;> simp_all [file_get_object_aux, get_object_from_meta]

/-- Witness for C6 as amended, at a not-found failure and a permission
failure. -/
theorem io_error_boundary_translation_witness :
    get_storage_error ⟨.notFound⟩ ⟨["x"], false⟩
      = error.not_found ⟨["x"], false⟩ (some ⟨.notFound⟩)
    ∧ get_storage_error ⟨.permissionDenied⟩ ⟨["x"], false⟩
      = error.other_error (ObjectPath.toStr ⟨["x"], false⟩) (some ⟨.permissionDenied⟩)
    ∧ file_get_object_aux ["x"] (.error ⟨.permissionDenied⟩)
      = .ok ⟨["x"], ObjectType.unknown, 0⟩ := by
  refine ⟨?_, ?_, ?_⟩
  · exact (io_error_boundary_translation ⟨.notFound⟩ ⟨["x"], false⟩ ["x"]).1 rfl
  · exact (io_error_boundary_translation ⟨.permissionDenied⟩ ⟨["x"], false⟩ ["x"]).2.1
      (by decide)
  · exact (io_error_boundary_translation ⟨.permissionDenied⟩ ⟨["x"], false⟩ ["x"]).2.2.2
      (by decide)

/-- Claim C7: one poll step of the adaptive buffered read stream: a
zero-length read yields the end-of-stream signal and leaves no item; an
underlying I/O error yields the boundary-translated storage error as the
final item; a read of n greater than zero bytes yields exactly the filled
n-byte prefix as the owned chunk, while the remainder of the buffer is kept
(or replaced by a fresh initial-size buffer when it fell below the minimum
size). -/
theorem read_stream_poll_step (st : ReadStreamState) :
    ReadStream.inner_poll st (.ready []) = (.ready none, st)
    ∧ (∀ e, ReadStream.inner_poll st (.readErr e)
        = (.ready (some (.error (get_storage_error e st.path))), st))
    ∧ (∀ bs : List Nat, bs ≠ [] → bs.length ≤ st.buffer.length →
        ReadStream.inner_poll st (.ready bs)
          = (.ready (some (.ok bs)),
             { st with buffer :=
                if st.buffer.length - bs.length < st.minimum_buffer_size then
                  freshBuffer st.initial_buffer_size
                else st.buffer.drop bs.length })) := by
  refine ⟨rfl, fun e => rfl, fun bs hne hlen => ?_⟩
  have hpos : bs.length ≠ 0 := by simpa using hne
  simp only [ReadStream.inner_poll, hpos, if_false, List.take_left, List.drop_left,
    List.length_drop, ite_false]

/-- Witness for C7 at a concrete buffer and read. -/
theorem read_stream_poll_step_witness :
    ReadStream.inner_poll ⟨⟨["f"], false⟩, [0, 0, 0, 0], 8, 2⟩ (.ready [5, 6])
      = (.ready (some (.ok [5, 6])), ⟨⟨["f"], false⟩, [0, 0], 8, 2⟩) := by
  have h := (read_stream_poll_step ⟨⟨["f"], false⟩, [0, 0, 0, 0], 8, 2⟩).2.2
    [5, 6] (by decide) (by decide)
  simpa using h

/-- Claim C8: when the path handed to B2 list_objects has a non-empty
remainder after its first segment, or is a directory prefix, the containers
enumerated are exactly the account buckets whose name equals the first
segment; no differently named container contributes. -/
theorem b2_list_objects_bucket_filter (backendPfx pfx : ObjectPath)
    (accountBuckets : List B2Bucket)
    (h : ¬(backendPfx.join pfx).unshiftPart.2.isEmptyPath = true
        ∨ (backendPfx.join pfx).dirFlag = true) :
    b2_list_enumerated_buckets backendPfx pfx accountBuckets
      = accountBuckets.filter
          (fun b => b.bucket_name = ((backendPfx.join pfx).unshiftPart.1.getD "")) := by
  unfold b2_list_enumerated_buckets
  dsimp only
  rw [if_pos h]
  set bucket := ((backendPfx.join pfx).unshiftPart.1.getD "") with hb
  induction accountBuckets with
  | nil => rfl
  | cons b t ih =>
    by_cases hbn : b.bucket_name = bucket
    · rw [List.filter_cons, if_pos (by simpa using hbn), List.filter_cons,
        if_pos (by simp [hbn, List.isPrefixOf_iff_prefix])]
      exact congrArg (b :: ·) ih
    · rw [List.filter_cons, if_neg (by simpa using hbn)]
      exact ih

/-- Witness for C8: with the path bkt/x, only the bucket named exactly bkt is
enumerated, even though the account also holds a bucket named bkt2 sharing
the prefix. -/
theorem b2_list_objects_bucket_filter_witness :
    b2_list_enumerated_buckets ⟨[], false⟩ ⟨["bkt", "x"], false⟩
        [⟨"id1", "bkt"⟩, ⟨"id2", "bkt2"⟩, ⟨"id3", "other"⟩]
      = [⟨"id1", "bkt"⟩] := by
  have h := b2_list_objects_bucket_filter ⟨[], false⟩ ⟨["bkt", "x"], false⟩
    [⟨"id1", "bkt"⟩, ⟨"id2", "bkt2"⟩, ⟨"id3", "other"⟩] (Or.inl (by decide))
  simpa using h

/-- Claim C10: releasing a guard from the concurrency-limited pool is
idempotent: the first release returns the held permit to the semaphore and
clears the acquired flag, a release of an unacquired guard (and hence any
repeated release, and the final drop) is a no-op, and a guard obtained from
take returns the semaphore to its original permit count after one release. -/
theorem in_use_release_once {T : Type} (g : InUse T) (s : SemaphoreState) :
    (g.permit.acquired = true →
      g.release s = ({ g with permit := ⟨false⟩ }, ⟨s.available + 1⟩))
    ∧ (g.permit.acquired = false → g.release s = (g, s))
    ∧ (g.release s).1.release (g.release s).2 = g.release s
    ∧ (g.release s).1.dropGuard (g.release s).2 = g.release s
    ∧ (∀ (base : T) (h : 0 < s.available),
        ((Limited.take base s h).1.release (Limited.take base s h).2).2 = s
        ∧ ((Limited.take base s h).1.release
            (Limited.take base s h).2).1.permit.acquired = false) := by
  rcases g with ⟨⟨acq⟩, inner⟩
  rcases s with ⟨n⟩
  refine ⟨fun h => ?_, fun h => ?_, ?_, ?_, fun base h => ⟨?_, ?_⟩⟩
  · subst h
    simp [InUse.release, Permit.releasePermit]
  · subst h
    simp [InUse.release]
  · cases acq <;> simp [InUse.release, Permit.releasePermit]
  · cases acq <;> simp [InUse.dropGuard, InUse.release, Permit.releasePermit]
  · simp only [Limited.take, InUse.release, Permit.releasePermit]
    simp [Nat.sub_add_cancel h]
  · simp [Limited.take, InUse.release, Permit.releasePermit]

/-- Witness for C10 at a concrete guard and semaphore. -/
theorem in_use_release_once_witness :
    InUse.release (T := Nat) ⟨⟨true⟩, 7⟩ ⟨2⟩ = (⟨⟨false⟩, 7⟩, ⟨3⟩)
    ∧ ((Limited.take (T := Nat) 7 ⟨2⟩ (by decide)).1.release
        (Limited.take (T := Nat) 7 ⟨2⟩ (by decide)).2).2 = ⟨2⟩ := by
  constructor
  · exact (in_use_release_once ⟨⟨true⟩, 7⟩ ⟨2⟩).1 rfl
  · exact ((in_use_release_once (T := Nat) ⟨⟨true⟩, 7⟩ ⟨2⟩).2.2.2.2 7 (by decide)).1
